import Mathlib

/-!
Shallow embedding of the ambulance dispatch server (`src/app.py`).

Coordinates are modelled as rationals (the source's float arithmetic here is
exact decimal division by 100000 and field pass-through), distances in meters
as integers (the Distance Matrix `distance.value` field), and Firestore
documents as an association list from document id to field data.  Fallible
steps (a Firestore `update` on a missing document, `decode_polyline` running
off the end of the input) return `Option`/explicit error constructors.
External services (Distance Matrix, Directions) are passed in as functions
from the query coordinates to the modelled shape of their responses.
-/

namespace AmbulanceServer

/-- A Firestore `GeoPoint`: latitude and longitude in degrees. -/
structure GeoPoint where
  latitude : ℚ
  longitude : ℚ
deriving DecidableEq

/-- The `current_location` field of an ambulance document: absent, present but
not a `GeoPoint` (the `isinstance` check in `app.py` fails), or a `GeoPoint`. -/
inductive LocField where
  | absent : LocField
  | malformed : LocField
  | geo (g : GeoPoint) : LocField
deriving DecidableEq

/-- Field data of one ambulance document (`amb.to_dict()` in `app.py`).
Every field other than the location is an optional string, `none` meaning the
key is missing from the document. -/
structure AmbData where
  ambulance_id : Option String
  current_location : LocField
  driver_name : Option String
  contact_number : Option String
  status : Option String
deriving DecidableEq

/-- A validated candidate, as built by the filter loop of
`get_nearest_ambulance` (lines 99-106 of `app.py`). -/
structure Candidate where
  id : String
  latitude : ℚ
  longitude : ℚ
  name : String
  contact : String
  status : String
deriving DecidableEq

/-- The candidate built from a document whose `current_location` is a
`GeoPoint` `g`, with the source's default values for missing fields. -/
def mkCandidate (d : AmbData) (g : GeoPoint) : Candidate :=
  { id := d.ambulance_id.getD "Not available"
    latitude := g.latitude
    longitude := g.longitude
    name := d.driver_name.getD "Ambulance"
    contact := d.contact_number.getD "Not provided"
    status := d.status.getD "Not available" }

/-- The warning logged for a document with an invalid location
(`app.logger.warning` at line 108 of `app.py`). -/
def warnMsg (docId : String) : String :=
  "Ambulance " ++ docId ++ " has invalid location data"

/-- The filter loop of `get_nearest_ambulance` (lines 92-108): walk the
streamed documents in order, turning each `GeoPoint`-located document into a
candidate and logging a warning for every other document.  Returns the
candidate list and the warning list, both in source order. -/
def candidateFilter : List (String × AmbData) → List Candidate × List String
  | [] => ([], [])
  | (docId, d) :: rest =>
      let r := candidateFilter rest
      match d.current_location with
      | LocField.geo g => (mkCandidate d g :: r.1, r.2)
      | _ => (r.1, warnMsg docId :: r.2)

/-- Modelled outcome of one Distance Matrix query for one candidate
(lines 126-142 of `app.py`): `success` is top-level status OK with a row whose
element has status OK, carrying `distance.value` (meters) and `duration.text`;
`elemFail` is an element with non-OK status; `topFail` is a non-OK top-level
status or missing rows. -/
inductive OracleResp where
  | success (distance : ℤ) (duration : String) : OracleResp
  | elemFail : OracleResp
  | topFail : OracleResp
deriving DecidableEq

/-- A successful distance result: the candidate together with its distance in
meters and its duration text. -/
abbrev DistanceResult := Candidate × ℤ × String

/-- The distance component of a `DistanceResult`. -/
def drDist (r : DistanceResult) : ℤ := r.2.1

/-- Repackage a successful `DistanceResult` as the candidate paired with the
oracle response the selection loop would see for it. -/
def toResp (r : DistanceResult) : Candidate × OracleResp :=
  (r.1, OracleResp.success r.2.1 r.2.2)

/-- The selection loop of `get_nearest_ambulance` (lines 111-142): iterate the
candidates with their oracle responses, keeping the running best
`(nearest_ambulance, min_distance, nearest_ambulance_time)`.  `none` models
`min_distance = inf` / `nearest_ambulance = None`; a new success replaces the
best exactly when its distance is strictly smaller. -/
def selectLoop : List (Candidate × OracleResp) → Option DistanceResult → Option DistanceResult
  | [], best => best
  | (c, OracleResp.success d t) :: rest, best =>
      match best with
      | none => selectLoop rest (some (c, d, t))
      | some b => if d < drDist b then selectLoop rest (some (c, d, t)) else selectLoop rest best
  | (_, _) :: rest, best => selectLoop rest best

/-- One step of the selection loop on a successful result: keep the running
best unless the new distance is strictly smaller (so the first of several
equal minima is kept). -/
def selectStep (best : Option DistanceResult) (r : DistanceResult) : Option DistanceResult :=
  match best with
  | none => some r
  | some b => if drDist r < drDist b then some r else some b

/-- The candidate a document contributes, if any: `some` exactly when its
`current_location` is a `GeoPoint`. -/
def candOf (p : String × AmbData) : Option Candidate :=
  match p.2.current_location with
  | LocField.geo g => some (mkCandidate p.2 g)
  | _ => none

/-- Whether a location field passes the `isinstance(current_location, GeoPoint)`
check. -/
def isGeoB : LocField → Bool
  | LocField.geo _ => true
  | _ => false

/-- Overwrite the `status` field with `"busy"`, leaving the other fields of
the document untouched (the `update` payload at lines 147-149 of `app.py`). -/
def setBusy (d : AmbData) : AmbData :=
  { d with status := some "busy" }

/-- Firestore `document(id).update({'status': 'busy'})`: if no document has
that id the call raises (modelled as `none`); otherwise the matching
document's `status` field is overwritten with `"busy"`. -/
def updateStatusBusy (store : List (String × AmbData)) (id : String) :
    Option (List (String × AmbData)) :=
  match store.find? (fun p => p.1 == id) with
  | none => none
  | some _ => some (store.map (fun p => if p.1 = id then (p.1, setBusy p.2) else p))

/-- The JSON outcome of `get_nearest_ambulance`: 400 for a missing location,
404 when no ambulance with a valid distance was found, 500 when the Firestore
update raises, 200 with the winner's fields otherwise. -/
inductive DispatchResult where
  | badRequest : DispatchResult
  | notFound : DispatchResult
  | updateFailed : DispatchResult
  | ok (id : String) (latitude longitude : ℚ) (contact driver_name : String)
      (distance_meters : ℤ) (duration : String) : DispatchResult
deriving DecidableEq

/-- HTTP status code attached to each `DispatchResult` by `app.py`. -/
def DispatchResult.code : DispatchResult → ℕ
  | DispatchResult.badRequest => 400
  | DispatchResult.notFound => 404
  | DispatchResult.updateFailed => 500
  | DispatchResult.ok _ _ _ _ _ _ _ => 200

/-- The `/get-nearest-ambulance` handler (lines 74-163 of `app.py`).
`reqLoc` is the parsed `location` field (`none` when missing, giving the 400
branch), `store` the streamed `ambulances` collection, `oracle` the Distance
Matrix service as a function of origin and destination coordinates.  Returns
the response, the resulting datastore, and the list of destinations queried
against the oracle (one per candidate, in order). -/
def getNearestAmbulance (reqLoc : Option (ℚ × ℚ)) (store : List (String × AmbData))
    (oracle : ℚ × ℚ → ℚ × ℚ → OracleResp) :
    DispatchResult × List (String × AmbData) × List (ℚ × ℚ) :=
  match reqLoc with
  | none => (DispatchResult.badRequest, store, [])
  | some u =>
      match selectLoop ((candidateFilter store).1.map
          (fun c => (c, oracle u (c.latitude, c.longitude)))) none with
      | none =>
          (DispatchResult.notFound, store,
           (candidateFilter store).1.map (fun c => (c.latitude, c.longitude)))
      | some w =>
          match updateStatusBusy store w.1.id with
          | none =>
              (DispatchResult.updateFailed, store,
               (candidateFilter store).1.map (fun c => (c.latitude, c.longitude)))
          | some store2 =>
              (DispatchResult.ok w.1.id w.1.latitude w.1.longitude w.1.contact w.1.name
                w.2.1 w.2.2, store2,
               (candidateFilter store).1.map (fun c => (c.latitude, c.longitude)))

/-- The low five bits of a byte-minus-63 value, exactly Python's `b & 0x1F`
on an arbitrary-precision integer (two's-complement AND with 31 is the
mathematical remainder modulo 32). -/
def low5 (b : ℤ) : ℕ := (b % 32).toNat

/-- The inner chunk loop of `decode_polyline` (lines 259-265 / 271-277 of
`app.py`): consume characters, subtracting 63 from each code point, OR the low
five bits into `result` at the current `shift`, and stop at the first byte
whose value-minus-63 is below `0x20`.  Running off the end of the string
(Python would raise `IndexError`) is `none`. -/
def readChunk : List Char → ℕ → ℕ → Option (ℕ × List Char)
  | [], _, _ => none
  | c :: rest, shift, result =>
      let b : ℤ := (c.toNat : ℤ) - 63
      let result2 := result ||| (low5 b <<< shift)
      if b < 0x20 then some (result2, rest) else readChunk rest (shift + 5) result2

/-- Zig-zag decoding of a chunk value (lines 266 and 278 of `app.py`):
`~(result >> 1)` when the low bit is set, `result >> 1` otherwise. -/
def zigzag (result : ℕ) : ℤ :=
  if result &&& 1 ≠ 0 then ~~~((result >>> 1 : ℕ) : ℤ) else ((result >>> 1 : ℕ) : ℤ)

/-- The outer loop of `decode_polyline` (lines 256-281): while characters
remain, decode a latitude chunk and a longitude chunk, add the zig-zag deltas
to the running integer accumulators `lat` and `lng`, and emit the accumulator
pair.  The fuel argument only makes the recursion structural: each iteration
consumes at least two characters, so any fuel of at least `length + 1` is
never exhausted. -/
def decodeLoop : ℕ → List Char → ℤ → ℤ → Option (List (ℤ × ℤ))
  | 0, _, _, _ => none
  | _ + 1, [], _, _ => some []
  | fuel + 1, c :: cs, lat, lng =>
      match readChunk (c :: cs) 0 0 with
      | none => none
      | some (r1, rest1) =>
          let lat2 := lat + zigzag r1
          match readChunk rest1 0 0 with
          | none => none
          | some (r2, rest2) =>
              let lng2 := lng + zigzag r2
              match decodeLoop fuel rest2 lat2 lng2 with
              | none => none
              | some pts => some ((lat2, lng2) :: pts)

/-- The coordinate emitted for one accumulator pair: `[lat / 1e5, lng / 1e5]`
(line 281 of `app.py`; the division is exact in the rationals). -/
def emitPoint (p : ℤ × ℤ) : ℚ × ℚ :=
  ((p.1 : ℚ) / 100000, (p.2 : ℚ) / 100000)

/-- `decode_polyline` (lines 248-282 of `app.py`): `none` models the Python
function raising `IndexError` on an input that ends in the middle of a chunk.
The source divides each accumulator by `1e5` as it appends the point; since
the accumulators themselves stay integers, that is the same as emitting the
accumulator pairs and dividing at the end. -/
def decodePolyline (s : String) : Option (List (ℚ × ℚ)) :=
  (decodeLoop (s.length + 1) s.data 0 0).map (fun l => l.map emitPoint)

/-- Modelled from the spec (§4.5, polyline decoding), for comparison with the
source's `decodePolyline`: chunk reading as the spec words it — collect the
low five bits of each byte-minus-63 value, continuing while the raw `0x20`
bit of that value is set, stopping at the first byte where it is clear.
The `0x20` bit of the (possibly negative) value `b` is set exactly when
`32 ≤ b % 64` in two's complement.  `none` when the input ends mid-chunk. -/
def specChunk : List Char → Option (List ℕ × List Char)
  | [] => none
  | c :: rest =>
      let b : ℤ := (c.toNat : ℤ) - 63
      if 32 ≤ b % 64 then
        match specChunk rest with
        | none => none
        | some (gs, r) => some (low5 b :: gs, r)
      else some ([low5 b], rest)

/-- Modelled from the spec (§4.5): OR the five-bit groups together, each
left-shifted by an increasing multiple of five starting at `shift`. -/
def orShifted : List ℕ → ℕ → ℕ
  | [], _ => 0
  | g :: gs, shift => (g <<< shift) ||| orShifted gs (shift + 5)

/-- Modelled from the spec (§4.5): zig-zag decoding — if the accumulated
value's lowest bit is 1, the delta is the bitwise complement of the value
right-shifted by one, otherwise the right-shift by one. -/
def specDelta (v : ℕ) : ℤ :=
  if v % 2 = 1 then ~~~((v >>> 1 : ℕ) : ℤ) else ((v >>> 1 : ℕ) : ℤ)

/-- Modelled from the spec (§4.5): decode one latitude and one longitude delta
per point, add each to its running accumulator, and emit one pair per
complete (latitude, longitude) pair until the input is exhausted.  Fuel as in
`decodeLoop`. -/
def specDecodeLoop : ℕ → List Char → ℤ → ℤ → Option (List (ℤ × ℤ))
  | 0, _, _, _ => none
  | _ + 1, [], _, _ => some []
  | fuel + 1, c :: cs, lat, lng =>
      match specChunk (c :: cs) with
      | none => none
      | some (gs1, rest1) =>
          let lat2 := lat + specDelta (orShifted gs1 0)
          match specChunk rest1 with
          | none => none
          | some (gs2, rest2) =>
              let lng2 := lng + specDelta (orShifted gs2 0)
              match specDecodeLoop fuel rest2 lat2 lng2 with
              | none => none
              | some pts => some ((lat2, lng2) :: pts)

/-- Modelled from the spec (§4.5): the full specified decoding algorithm, the
accumulators divided by 100000 to give the coordinates in degrees. -/
def specDecodePolyline (s : String) : Option (List (ℚ × ℚ)) :=
  (specDecodeLoop (s.length + 1) s.data 0 0).map (fun l => l.map emitPoint)

/-- The parsed body of a `/fetch-route` request; each field is `none` when the
key is missing from the JSON. -/
structure RouteReq where
  ambulance_id : Option String
  user_lat : Option ℚ
  user_lng : Option ℚ
deriving DecidableEq

/-- Modelled outcome of one Directions API call (lines 220-241 of `app.py`):
`ok` is HTTP 200 with top-level status OK, carrying the first route's first
leg's distance text, duration text, and the `overview_polyline.points`
string; `err` is any other outcome, with the optional `error_message`. -/
inductive DirectionsResp where
  | ok (distance duration : String) (polyline : String) : DirectionsResp
  | err (msg : Option String) : DirectionsResp
deriving DecidableEq

/-- The JSON outcome of `fetch_route`: 400 for missing fields, an invalid
stored location or a Directions error, 404 for an unknown ambulance id, 500
when polyline decoding raises, 200 with the decoded path otherwise. -/
inductive RouteResult where
  | badRequest : RouteResult
  | ambNotFound : RouteResult
  | invalidAmbLocation : RouteResult
  | directionsError (msg : String) : RouteResult
  | decodeCrash : RouteResult
  | ok (path : List (ℚ × ℚ)) (distance duration : String) : RouteResult
deriving DecidableEq

/-- HTTP status code attached to each `RouteResult` by `app.py`. -/
def RouteResult.code : RouteResult → ℕ
  | RouteResult.badRequest => 400
  | RouteResult.ambNotFound => 404
  | RouteResult.invalidAmbLocation => 400
  | RouteResult.directionsError _ => 400
  | RouteResult.decodeCrash => 500
  | RouteResult.ok _ _ _ => 200

/-- The `/fetch-route` handler (lines 174-245 of `app.py`).  `data` is the
parsed request body, `store` the `ambulances` collection, `directions` the
Directions service as a function of origin and destination.  Returns the
response, the datastore after the request (the handler never writes), and
whether the Directions service was called.  Python's falsy check
`not ambulance_id` rejects both a missing id and an empty string. -/
def fetchRoute (data : Option RouteReq) (store : List (String × AmbData))
    (directions : ℚ × ℚ → ℚ × ℚ → DirectionsResp) :
    RouteResult × List (String × AmbData) × Bool :=
  match data with
  | none => (RouteResult.badRequest, store, false)
  | some d =>
      match d.ambulance_id, d.user_lat, d.user_lng with
      | some aid, some ulat, some ulng =>
          if aid = "" then (RouteResult.badRequest, store, false)
          else
            match (store.find? (fun p => p.1 == aid)) with
            | none => (RouteResult.ambNotFound, store, false)
            | some p =>
                match p.2.current_location with
                | LocField.geo g =>
                    match directions (g.latitude, g.longitude) (ulat, ulng) with
                    | DirectionsResp.ok dist dur poly =>
                        match decodePolyline poly with
                        | some path => (RouteResult.ok path dist dur, store, true)
                        | none => (RouteResult.decodeCrash, store, true)
                    | DirectionsResp.err m =>
                        (RouteResult.directionsError
                          ("Directions API error: " ++ m.getD "Directions not found"),
                         store, true)
                | _ => (RouteResult.invalidAmbLocation, store, false)
      | _, _, _ => (RouteResult.badRequest, store, false)

/-- Concrete candidate used in witness statements. -/
def candA : Candidate :=
  { id := "A", latitude := 0, longitude := 0, name := "a", contact := "1", status := "available" }

/-- Concrete candidate used in witness statements. -/
def candB : Candidate :=
  { id := "B", latitude := 0, longitude := 1, name := "b", contact := "2", status := "available" }

/-- Concrete candidate used in witness statements. -/
def candC : Candidate :=
  { id := "C", latitude := 1, longitude := 0, name := "c", contact := "3", status := "available" }

/-- Concrete candidate used in witness statements. -/
def candD : Candidate :=
  { id := "D", latitude := 1, longitude := 1, name := "d", contact := "4", status := "available" }

/-- Concrete document data used in concrete-input theorems: a unit that is
already busy. -/
def dRajBusy : AmbData :=
  { ambulance_id := some "A1", current_location := LocField.geo ⟨1, 2⟩,
    driver_name := some "Raj", contact_number := some "999", status := some "busy" }

/-- Concrete document data used in concrete-input theorems: a unit whose
status is a pass-through value that is not `available`. -/
def dRajOff : AmbData :=
  { ambulance_id := some "A1", current_location := LocField.geo ⟨1, 2⟩,
    driver_name := some "Raj", contact_number := some "999", status := some "offduty" }

/-- Concrete document data used in concrete-input theorems: an available
unit. -/
def dRaj : AmbData :=
  { ambulance_id := some "A1", current_location := LocField.geo ⟨1, 2⟩,
    driver_name := some "Raj", contact_number := some "999", status := some "available" }

/-- Concrete document data used in concrete-input theorems: a second available
unit, farther away. -/
def dLee : AmbData :=
  { ambulance_id := some "B2", current_location := LocField.geo ⟨3, 4⟩,
    driver_name := some "Lee", contact_number := some "888", status := some "available" }

/-! ## Helper lemmas: polyline decoding -/

/-- The source's zig-zag branch (`result & 1` truthy, complement of the shift)
computes exactly the spec's zig-zag delta. -/
theorem zigzag_eq_specDelta (v : ℕ) : zigzag v = specDelta v := by
  unfold zigzag specDelta
  rw [Nat.and_one_is_mod]
  rcases Nat.mod_two_eq_zero_or_one v with h | h <;> simp [h]

/-- The remainder of the input after reading one spec chunk is a sub-collection
of the input characters. -/
theorem specChunk_rest_subset {l rest : List Char} {gs : List ℕ}
    (h : specChunk l = some (gs, rest)) : ∀ x ∈ rest, x ∈ l := by
  induction l generalizing gs rest with
  | nil => simp [specChunk] at h
  | cons c cs ih =>
      simp only [specChunk] at h
      split at h
      · cases hcs : specChunk cs with
        | none => rw [hcs] at h; simp at h
        | some p =>
            obtain ⟨gs0, rest0⟩ := p
            rw [hcs] at h
            simp only [Option.some.injEq, Prod.mk.injEq] at h
            intro x hx
            exact List.mem_cons_of_mem c (ih hcs x (h.2 ▸ hx))
      · simp only [Option.some.injEq, Prod.mk.injEq] at h
        intro x hx
        exact List.mem_cons_of_mem c (h.2 ▸ hx)

/-- For characters in the polyline alphabet (code points 63 to 126), the
source's accumulating chunk loop computes the OR at `shift` of the spec's
five-bit groups into the running `result`, and consumes the same characters. -/
theorem readChunk_eq_specChunk (l : List Char) :
    ∀ (shift result : ℕ), (∀ c ∈ l, 63 ≤ c.toNat ∧ c.toNat ≤ 126) →
    readChunk l shift result =
      (specChunk l).map (fun p => (result ||| orShifted p.1 shift, p.2)) := by
  induction l with
  | nil => intro shift result _; rfl
  | cons c cs ih =>
      intro shift result h
      obtain ⟨h1, h2⟩ := h c (List.mem_cons_self c cs)
      have hb0 : (0 : ℤ) ≤ (c.toNat : ℤ) - 63 := by
        have := Int.ofNat_le.2 h1
        omega
      have hb64 : (c.toNat : ℤ) - 63 < 64 := by
        have := Int.ofNat_le.2 h2
        omega
      have hmod : ((c.toNat : ℤ) - 63) % 64 = (c.toNat : ℤ) - 63 :=
        Int.emod_eq_of_lt hb0 hb64
      simp only [readChunk, specChunk, hmod]
      by_cases hlt : ((c.toNat : ℤ) - 63) < 32
      · rw [if_pos hlt, if_neg (by omega)]
        simp [orShifted]
      · rw [if_neg hlt, if_pos (by omega)]
        rw [ih (shift + 5) (result ||| low5 ((c.toNat : ℤ) - 63) <<< shift)
          (fun x hx => h x (List.mem_cons_of_mem c hx))]
        cases specChunk cs with
        | none => rfl
        | some p => simp [orShifted, Nat.lor_assoc]

/-- For inputs over the polyline alphabet, the source's decoding loop and the
spec's decoding loop agree (same accumulator pairs, same failure points). -/
theorem decodeLoop_eq_specDecodeLoop (fuel : ℕ) :
    ∀ (l : List Char) (lat lng : ℤ), (∀ c ∈ l, 63 ≤ c.toNat ∧ c.toNat ≤ 126) →
    decodeLoop fuel l lat lng = specDecodeLoop fuel l lat lng := by
  induction fuel with
  | zero => intro l lat lng _; rfl
  | succ fuel ih =>
      intro l lat lng h
      cases l with
      | nil => rfl
      | cons c cs =>
          simp only [decodeLoop, specDecodeLoop]
          rw [readChunk_eq_specChunk (c :: cs) 0 0 h]
          cases h1 : specChunk (c :: cs) with
          | none => rfl
          | some p1 =>
              obtain ⟨gs1, rest1⟩ := p1
              have hrest1 : ∀ x ∈ rest1, 63 ≤ x.toNat ∧ x.toNat ≤ 126 :=
                fun x hx => h x (specChunk_rest_subset h1 x hx)
              simp only [Option.map_some']
              rw [readChunk_eq_specChunk rest1 0 0 hrest1]
              cases h2 : specChunk rest1 with
              | none => rfl
              | some p2 =>
                  obtain ⟨gs2, rest2⟩ := p2
                  have hrest2 : ∀ x ∈ rest2, 63 ≤ x.toNat ∧ x.toNat ≤ 126 :=
                    fun x hx => hrest1 x (specChunk_rest_subset h2 x hx)
                  simp only [Option.map_some']
                  rw [zigzag_eq_specDelta, zigzag_eq_specDelta,
                    ih rest2 (lat + specDelta (0 ||| orShifted gs1 0))
                      (lng + specDelta (0 ||| orShifted gs2 0)) hrest2]
                  simp [Nat.zero_or]

/-! ## Helper lemmas: the selection loop -/

/-- On a list of successful results, the selection loop is a left fold of
`selectStep`. -/
theorem selectLoop_map_toResp (rs : List DistanceResult) :
    ∀ best, selectLoop (rs.map toResp) best = rs.foldl selectStep best := by
  induction rs with
  | nil => intro best; rfl
  | cons r rest ih =>
      intro best
      obtain ⟨c, d, t⟩ := r
      cases best with
      | none => simp [toResp, selectLoop, selectStep, drDist, ih]
      | some b =>
          simp only [List.map_cons, toResp, selectLoop, List.foldl_cons, selectStep, drDist]
          split <;> exact ih _

/-- A running best no greater than every remaining distance survives the rest
of the fold (ties never replace it). -/
theorem foldl_selectStep_keep (rs : List DistanceResult) :
    ∀ b, (∀ x ∈ rs, drDist b ≤ drDist x) → rs.foldl selectStep (some b) = some b := by
  induction rs with
  | nil => intro b _; rfl
  | cons r rest ih =>
      intro b h
      have hb := h r (List.mem_cons_self r rest)
      simp only [List.foldl_cons, selectStep]
      rw [if_neg (not_lt.2 hb)]
      exact ih b (fun x hx => h x (List.mem_cons_of_mem r hx))

/-- The fold started from a concrete best returns that best or some element of
the list. -/
theorem foldl_selectStep_some_mem (rs : List DistanceResult) :
    ∀ b, ∃ x, (x = b ∨ x ∈ rs) ∧ rs.foldl selectStep (some b) = some x := by
  induction rs with
  | nil => intro b; exact ⟨b, Or.inl rfl, rfl⟩
  | cons r rest ih =>
      intro b
      simp only [List.foldl_cons, selectStep]
      by_cases h : drDist r < drDist b
      · rw [if_pos h]
        obtain ⟨x, hx, heq⟩ := ih r
        exact ⟨x, Or.inr (hx.elim (fun e => e ▸ List.mem_cons_self r rest)
          (List.mem_cons_of_mem r)), heq⟩
      · rw [if_neg h]
        obtain ⟨x, hx, heq⟩ := ih b
        exact ⟨x, hx.elim Or.inl (fun hm => Or.inr (List.mem_cons_of_mem r hm)), heq⟩

/-- If `r` is placed after a prefix of strictly larger distances and before a
suffix of no smaller distances, the fold from the empty best returns `r`. -/
theorem foldl_selectStep_first_min (pre post : List DistanceResult) (r : DistanceResult)
    (hpre : ∀ x ∈ pre, drDist r < drDist x) (hpost : ∀ x ∈ post, drDist r ≤ drDist x) :
    (pre ++ r :: post).foldl selectStep none = some r := by
  rw [List.foldl_append]
  cases pre with
  | nil =>
      simp only [List.foldl_nil, List.foldl_cons]
      exact foldl_selectStep_keep post r hpost
  | cons p ps =>
      simp only [List.foldl_cons]
      show (r :: post).foldl selectStep (ps.foldl selectStep (selectStep none p)) = some r
      obtain ⟨x, hx, heq⟩ := foldl_selectStep_some_mem ps p
      have hxmem : x ∈ p :: ps := hx.elim (fun e => e ▸ List.mem_cons_self p ps)
        (List.mem_cons_of_mem p)
      have hrx : drDist r < drDist x := hpre x hxmem
      show (r :: post).foldl selectStep (ps.foldl selectStep (some p)) = some r
      rw [heq]
      simp only [List.foldl_cons, selectStep]
      rw [if_pos hrx]
      exact foldl_selectStep_keep post r hpost

/-- Every member of a list sits after a prefix that does not contain it. -/
theorem exists_first_decomp {α : Type} {r : α} {l : List α} (h : r ∈ l) :
    ∃ pre post, l = pre ++ r :: post ∧ r ∉ pre := by
  induction l with
  | nil => cases h
  | cons a as ih =>
      by_cases ha : a = r
      · exact ⟨[], as, by rw [ha]; rfl, List.not_mem_nil r⟩
      · have hmem : r ∈ as := by
          rcases List.mem_cons.1 h with h' | h'
          · exact absurd h'.symm ha
          · exact h'
        obtain ⟨p, q, hl, hnp⟩ := ih hmem
        refine ⟨a :: p, q, by rw [hl]; rfl, ?_⟩
        intro hc
        rcases List.mem_cons.1 hc with h' | h'
        · exact ha h'.symm
        · exact hnp h'

/-- A segment of the loop input containing no successful oracle response
leaves the running best untouched. -/
theorem selectLoop_skip (l : List (Candidate × OracleResp))
    (h : ∀ x ∈ l, ∀ d t, x.2 ≠ OracleResp.success d t) :
    ∀ best, selectLoop l best = best := by
  induction l with
  | nil => intro best; rfl
  | cons x rest ih =>
      intro best
      obtain ⟨c, resp⟩ := x
      cases resp with
      | success d t => exact absurd rfl (h (c, OracleResp.success d t) (List.mem_cons_self _ _) d t)
      | elemFail => exact ih (fun y hy => h y (List.mem_cons_of_mem _ hy)) best
      | topFail => exact ih (fun y hy => h y (List.mem_cons_of_mem _ hy)) best

/-! ## Helper lemmas: the candidate filter -/

/-- The candidate component of the filter loop is the `filterMap` of the
per-document candidate extraction. -/
theorem candidateFilter_fst (docs : List (String × AmbData)) :
    (candidateFilter docs).1 = docs.filterMap candOf := by
  induction docs with
  | nil => rfl
  | cons p rest ih =>
      obtain ⟨docId, d⟩ := p
      cases hloc : d.current_location <;>
        simp [candidateFilter, candOf, hloc, ih]

/-- The warning component of the filter loop is one warning per document that
fails the `GeoPoint` check, in order. -/
theorem candidateFilter_snd (docs : List (String × AmbData)) :
    (candidateFilter docs).2 =
      (docs.filter (fun p => !(isGeoB p.2.current_location))).map (fun p => warnMsg p.1) := by
  induction docs with
  | nil => rfl
  | cons p rest ih =>
      obtain ⟨docId, d⟩ := p
      cases hloc : d.current_location <;>
        simp [candidateFilter, isGeoB, hloc, ih]

/-- If no document has a `GeoPoint` location, the filter produces no
candidates. -/
theorem candidateFilter_noGeo (docs : List (String × AmbData))
    (h : ∀ p ∈ docs, ∀ g, p.2.current_location ≠ LocField.geo g) :
    (candidateFilter docs).1 = [] := by
  rw [candidateFilter_fst]
  rw [List.filterMap_eq_nil_iff]
  intro p hp
  unfold candOf
  cases hloc : p.2.current_location with
  | geo g => exact absurd hloc (h p hp g)
  | absent => rfl
  | malformed => rfl

/-- `fetch_route` never writes to the datastore: every branch returns the
store it was given. -/
theorem fetchRoute_preserves_store (data : Option RouteReq)
    (st : List (String × AmbData)) (dirs : ℚ × ℚ → ℚ × ℚ → DirectionsResp) :
    (fetchRoute data st dirs).2.1 = st := by
  cases data with
  | none => rfl
  | some d =>
      obtain ⟨aid, ulat, ulng⟩ := d
      cases aid with
      | none => rfl
      | some a =>
          cases ulat with
          | none => rfl
          | some la =>
              cases ulng with
              | none => rfl
              | some ln =>
                  simp only [fetchRoute]
                  repeat' split
                  all_goals rfl

/-! ## Claim theorems -/

/-- C2: for every non-empty list of successful DistanceResults with
pairwise-distinct distance values, the selection loop of
`get_nearest_ambulance` returns exactly the candidate whose distance is the
global minimum of the list, together with that minimum distance and its
duration.  With distinct distances, the global minimum `r` is the unique
entry strictly below every other entry, which is how it is characterised
here; the list is non-empty because `r` belongs to it. -/
theorem selector_returns_global_min (rs : List DistanceResult) (r : DistanceResult)
    (hmem : r ∈ rs) (hmin : ∀ x ∈ rs, x ≠ r → drDist r < drDist x) :
    selectLoop (rs.map toResp) none = some r := by
  rw [selectLoop_map_toResp]
  obtain ⟨pre, post, hdec, hnp⟩ := exists_first_decomp hmem
  rw [hdec]
  apply foldl_selectStep_first_min
  · intro x hx
    have hxrs : x ∈ rs := by rw [hdec]; exact List.mem_append_left _ hx
    refine hmin x hxrs ?_
    intro he
    exact hnp (he ▸ hx)
  · intro x hx
    have hxrs : x ∈ rs := by
      rw [hdec]
      exact List.mem_append_right _ (List.mem_cons_of_mem _ hx)
    by_cases he : x = r
    · rw [he]
    · exact le_of_lt (hmin x hxrs he)

/-- Witness for C2 on a concrete three-candidate list with distinct distances
500, 300, 900: the 300-meter candidate is selected. -/
theorem selector_returns_global_min_witness :
    selectLoop ([(candA, (500 : ℤ), "8 mins"), (candB, (300 : ℤ), "5 mins"),
      (candC, (900 : ℤ), "12 mins")].map toResp) none =
      some (candB, (300 : ℤ), "5 mins") :=
  selector_returns_global_min _ _ (by decide) (by decide)

/-- C3: for every non-empty list of successful DistanceResults in which two or
more candidates share the exact minimum distance value, the selection loop
returns the first such candidate in iteration order: here `r` is preceded only
by strictly larger distances, followed by no smaller ones, and at least one
later entry ties with it exactly. -/
theorem selector_tiebreak_first (pre post : List DistanceResult) (r : DistanceResult)
    (hpre : ∀ x ∈ pre, drDist r < drDist x) (hpost : ∀ x ∈ post, drDist r ≤ drDist x)
    (_htie : ∃ x ∈ post, drDist x = drDist r) :
    selectLoop ((pre ++ r :: post).map toResp) none = some r := by
  rw [selectLoop_map_toResp]
  exact foldl_selectStep_first_min pre post r hpre hpost

/-- Witness for C3 on a concrete list where the 300-meter minimum is shared by
the second and third candidates: the second (first in iteration order) wins. -/
theorem selector_tiebreak_first_witness :
    selectLoop (([(candA, (500 : ℤ), "8 mins")] ++ (candB, (300 : ℤ), "5 mins") ::
      [(candC, (300 : ℤ), "6 mins"), (candD, (700 : ℤ), "9 mins")]).map toResp) none =
      some (candB, (300 : ℤ), "5 mins") :=
  selector_tiebreak_first _ _ _ (by decide) (by decide) (by decide)

/-- C4: for every encoded polyline string (characters in the polyline alphabet,
code points 63 to 126), `decode_polyline` computes exactly the coordinates of
the algorithm as the spec states it: per value, chunks of low-five-bit groups
ORed at increasing multiples of five while the `0x20` bit of byte-minus-63 is
set, zig-zag decoded, accumulated, and divided by 100000, one pair per decoded
pair of deltas until the input is exhausted. -/
theorem decodePolyline_matches_spec_algorithm (s : String)
    (h : ∀ c ∈ s.data, 63 ≤ c.toNat ∧ c.toNat ≤ 126) :
    decodePolyline s = specDecodePolyline s := by
  unfold decodePolyline specDecodePolyline
  rw [decodeLoop_eq_specDecodeLoop (s.length + 1) s.data 0 0 h]

/-- Witness for C4 at the canonical encoded string. -/
theorem decodePolyline_matches_spec_algorithm_witness :
    (∀ c ∈ ("_p~iF~ps|U_ulLnnqC_mqNvxq`@" : String).data,
      63 ≤ c.toNat ∧ c.toNat ≤ 126) ∧
    decodePolyline "_p~iF~ps|U_ulLnnqC_mqNvxq`@" =
      specDecodePolyline "_p~iF~ps|U_ulLnnqC_mqNvxq`@" :=
  ⟨by decide, decodePolyline_matches_spec_algorithm _ (by decide)⟩

/-- C5: `decode_polyline` on the canonical reference string yields exactly the
three coordinates (38.5, -120.2), (40.7, -120.95), (43.252, -126.453), in that
order. -/
theorem decodePolyline_reference_example :
    decodePolyline "_p~iF~ps|U_ulLnnqC_mqNvxq`@" =
      some [((38.5 : ℚ), (-120.2 : ℚ)), ((40.7 : ℚ), (-120.95 : ℚ)),
        ((43.252 : ℚ), (-126.453 : ℚ))] := by
  have h : decodeLoop (("_p~iF~ps|U_ulLnnqC_mqNvxq`@" : String).length + 1)
      ("_p~iF~ps|U_ulLnnqC_mqNvxq`@" : String).data 0 0 =
      some [(3850000, -12020000), (4070000, -12095000), (4325200, -12645300)] := by
    decide
  rw [decodePolyline, h]
  simp [emitPoint]
  norm_num

/-- C7: the candidate filter excludes exactly the records whose location is
not a `GeoPoint`, emits one warning per excluded record while continuing with
the rest, and a record with a valid location but a missing identifier is still
processed, its identifier replaced by the sentinel `"Not available"`. -/
theorem candidateFilter_excludes_invalid_records (docs : List (String × AmbData)) :
    (candidateFilter docs).1 = docs.filterMap candOf ∧
    (candidateFilter docs).2 =
      (docs.filter (fun p => !(isGeoB p.2.current_location))).map (fun p => warnMsg p.1) ∧
    ∀ p ∈ docs, ∀ g, p.2.current_location = LocField.geo g → p.2.ambulance_id = none →
      mkCandidate p.2 g ∈ (candidateFilter docs).1 ∧ (mkCandidate p.2 g).id = "Not available" := by
  refine ⟨candidateFilter_fst docs, candidateFilter_snd docs, ?_⟩
  intro p hp g hg hid
  constructor
  · rw [candidateFilter_fst]
    exact List.mem_filterMap.2 ⟨p, hp, by simp [candOf, hg]⟩
  · simp [mkCandidate, hid]

/-- When the dispatch handler answers with the success constructor, the
resulting datastore is the input datastore with the status of the documents
keyed by the winning id overwritten to busy and nothing else touched. -/
theorem getNearest_ok_store (reqLoc : Option (ℚ × ℚ)) (store : List (String × AmbData))
    (oracle : ℚ × ℚ → ℚ × ℚ → OracleResp) (id : String) (lat lng : ℚ) (cn dn : String)
    (dist : ℤ) (dur : String) (store2 : List (String × AmbData)) (qs : List (ℚ × ℚ))
    (hrun : getNearestAmbulance reqLoc store oracle =
      (DispatchResult.ok id lat lng cn dn dist dur, store2, qs)) :
    store2 = store.map (fun p => if p.1 = id then (p.1, setBusy p.2) else p) := by
  cases reqLoc with
  | none => simp [getNearestAmbulance] at hrun
  | some u =>
      simp only [getNearestAmbulance] at hrun
      split at hrun
      · simp at hrun
      · split at hrun
        · simp at hrun
        · rename_i w hsel s2 hupd
          simp only [Prod.mk.injEq, DispatchResult.ok.injEq] at hrun
          obtain ⟨⟨hid, _, _, _, _, _, _⟩, hs2, _⟩ := hrun
          unfold updateStatusBusy at hupd
          split at hupd
          · exact absurd hupd (by simp)
          · simp only [Option.some.injEq] at hupd
            rw [← hs2, ← hupd, hid]

/-- C6: for every dispatch request whose candidate set is empty, whose
candidates are all filtered out for an invalid location, or whose distance
oracle queries all fail, `get_nearest_ambulance` answers 404 (no ambulances
found), leaves the datastore untouched, and does not crash. -/
theorem dispatch_reports_notFound_without_candidates (u : ℚ × ℚ)
    (store : List (String × AmbData)) (oracle : ℚ × ℚ → ℚ × ℚ → OracleResp)
    (h : store = [] ∨ (∀ p ∈ store, ∀ g, p.2.current_location ≠ LocField.geo g)
      ∨ (∀ o dst dist t, oracle o dst ≠ OracleResp.success dist t)) :
    (getNearestAmbulance (some u) store oracle).1 = DispatchResult.notFound ∧
    (getNearestAmbulance (some u) store oracle).2.1 = store ∧
    DispatchResult.code (getNearestAmbulance (some u) store oracle).1 = 404 := by
  have hsel : selectLoop ((candidateFilter store).1.map
      (fun c => (c, oracle u (c.latitude, c.longitude)))) none = none := by
    rcases h with h | h | h
    · subst h; rfl
    · rw [candidateFilter_noGeo store h]; rfl
    · apply selectLoop_skip
      intro x hx d t
      obtain ⟨c, _, rfl⟩ := List.mem_map.1 hx
      exact h u (c.latitude, c.longitude) d t
  simp only [getNearestAmbulance]
  rw [hsel]
  exact ⟨rfl, rfl, rfl⟩

/-- Witness for C6 with an empty candidate pool and an oracle that always
reports a transport failure. -/
theorem dispatch_reports_notFound_without_candidates_witness :
    (getNearestAmbulance (some (0, 0)) [] (fun _ _ => OracleResp.topFail)).1 =
      DispatchResult.notFound ∧
    (getNearestAmbulance (some (0, 0)) [] (fun _ _ => OracleResp.topFail)).2.1 = [] ∧
    DispatchResult.code (getNearestAmbulance (some (0, 0)) []
      (fun _ _ => OracleResp.topFail)).1 = 404 :=
  dispatch_reports_notFound_without_candidates (0, 0) [] (fun _ _ => OracleResp.topFail)
    (Or.inl rfl)

/-- C8: a request with missing or malformed required fields — a missing
`location` for `get-nearest-ambulance`; a missing (or falsy empty) or absent
`ambulance_id`, `user_lat` or `user_lng` for `fetch-route` — is answered 400
and neither the dispatch pipeline (no oracle query, no datastore change) nor
the route request (no Directions call) is attempted. -/
theorem validation_returns_400_without_attempt (store : List (String × AmbData))
    (oracle : ℚ × ℚ → ℚ × ℚ → OracleResp) (data : Option RouteReq)
    (dirs : ℚ × ℚ → ℚ × ℚ → DirectionsResp)
    (hdata : data = none ∨ ∃ d, data = some d ∧ (d.ambulance_id = none ∨
      d.ambulance_id = some "" ∨ d.user_lat = none ∨ d.user_lng = none)) :
    getNearestAmbulance none store oracle = (DispatchResult.badRequest, store, []) ∧
    DispatchResult.code DispatchResult.badRequest = 400 ∧
    fetchRoute data store dirs = (RouteResult.badRequest, store, false) ∧
    RouteResult.code RouteResult.badRequest = 400 := by
  refine ⟨rfl, rfl, ?_, rfl⟩
  rcases hdata with rfl | ⟨d, rfl, hf⟩
  · rfl
  · obtain ⟨aid, ulat, ulng⟩ := d
    dsimp only at hf
    rcases hf with h | h | h | h
    · subst h; cases ulat <;> cases ulng <;> rfl
    · subst h
      cases ulat with
      | none => rfl
      | some la =>
          cases ulng with
          | none => rfl
          | some ln => simp [fetchRoute]
    · subst h; cases aid <;> cases ulng <;> rfl
    · subst h; cases aid <;> cases ulat <;> rfl

/-- Witness for C8 with an absent dispatch location and a fetch-route body
missing its `ambulance_id`. -/
theorem validation_returns_400_without_attempt_witness :
    getNearestAmbulance none [] (fun _ _ => OracleResp.topFail) =
      (DispatchResult.badRequest, [], []) ∧
    DispatchResult.code DispatchResult.badRequest = 400 ∧
    fetchRoute (some { ambulance_id := none, user_lat := some 1, user_lng := some 2 }) []
      (fun _ _ => DirectionsResp.err none) = (RouteResult.badRequest, [], false) ∧
    RouteResult.code RouteResult.badRequest = 400 :=
  validation_returns_400_without_attempt [] (fun _ _ => OracleResp.topFail)
    (some { ambulance_id := none, user_lat := some 1, user_lng := some 2 })
    (fun _ _ => DirectionsResp.err none)
    (Or.inr ⟨_, rfl, Or.inl rfl⟩)

/-- C1 (code behaviour at a concrete input): a single ambulance whose status
is already `"busy"` — hence no longer `available` — still wins the dispatch;
the handler overwrites its status with an unconditional write and answers 200
success, surfacing no conflict.  This refutes the claimed compare-and-swap
with a surfaced conflict. -/
theorem reservation_overwrites_busy_unit :
    dRajBusy.status = some "busy" ∧
    getNearestAmbulance (some (0, 0)) [("A1", dRajBusy)]
      (fun _ _ => OracleResp.success 500 "5 mins") =
      (DispatchResult.ok "A1" 1 2 "999" "Raj" 500 "5 mins", [("A1", dRajBusy)], [(1, 2)]) ∧
    DispatchResult.code (DispatchResult.ok "A1" 1 2 "999" "Raj" 500 "5 mins") = 200 := by
  decide

/-- C9: the candidate filter never inspects the status field — a unit whose
location is a `GeoPoint` becomes a candidate whatever its status (none is
assumed about `d.status` here) — and when that unit wins the dispatch its
document's status is overwritten to `"busy"` unconditionally, again with no
assumption that it was `available` beforehand. -/
theorem filter_ignores_status_and_busy_unconditional (store : List (String × AmbData))
    (k : String) (d : AmbData) (g : GeoPoint) (u : ℚ × ℚ)
    (oracle : ℚ × ℚ → ℚ × ℚ → OracleResp) (res : DispatchResult)
    (store2 : List (String × AmbData)) (qs : List (ℚ × ℚ)) (lat lng : ℚ)
    (cn dn : String) (dist : ℤ) (dur : String)
    (hmem : (k, d) ∈ store) (hloc : d.current_location = LocField.geo g)
    (hrun : getNearestAmbulance (some u) store oracle = (res, store2, qs))
    (hwin : res = DispatchResult.ok k lat lng cn dn dist dur) :
    mkCandidate d g ∈ (candidateFilter store).1 ∧ (k, setBusy d) ∈ store2 := by
  constructor
  · rw [candidateFilter_fst]
    exact List.mem_filterMap.2 ⟨(k, d), hmem, by simp [candOf, hloc]⟩
  · have hmap := getNearest_ok_store (some u) store oracle k lat lng cn dn dist dur
      store2 qs (hwin ▸ hrun)
    rw [hmap]
    have he : (k, setBusy d) = (fun p : String × AmbData =>
        if p.1 = k then (p.1, setBusy p.2) else p) (k, d) := by simp
    rw [he]
    exact List.mem_map_of_mem _ hmem

/-- Witness for C9: a one-ambulance store whose unit is off duty (status
`"offduty"`, not `available`): it still becomes a candidate, wins, and its
status is overwritten to `"busy"`. -/
theorem filter_ignores_status_and_busy_unconditional_witness :
    mkCandidate dRajOff ⟨1, 2⟩ ∈ (candidateFilter [("A1", dRajOff)]).1 ∧
    ("A1", setBusy dRajOff) ∈ [("A1", setBusy dRajOff)] :=
  filter_ignores_status_and_busy_unconditional [("A1", dRajOff)] "A1" dRajOff ⟨1, 2⟩ (0, 0)
    (fun _ _ => OracleResp.success 500 "5 mins")
    (DispatchResult.ok "A1" 1 2 "999" "Raj" 500 "5 mins") [("A1", setBusy dRajOff)] [(1, 2)]
    1 2 "999" "Raj" 500 "5 mins"
    (by decide) (by decide) (by decide) (by decide)

/-- C10: on a successful dispatch the only datastore mutation is the busy
overwrite of the status field of the documents keyed by the winning unit's
id — every other document and every other field is carried over unchanged —
and `fetch_route` performs no datastore mutation at all. -/
theorem dispatch_frame_and_fetchRoute_pure (reqLoc : Option (ℚ × ℚ))
    (store : List (String × AmbData)) (oracle : ℚ × ℚ → ℚ × ℚ → OracleResp)
    (id : String) (lat lng : ℚ) (cn dn : String) (dist : ℤ) (dur : String)
    (store2 : List (String × AmbData)) (qs : List (ℚ × ℚ)) (data : Option RouteReq)
    (st : List (String × AmbData)) (dirs : ℚ × ℚ → ℚ × ℚ → DirectionsResp)
    (hrun : getNearestAmbulance reqLoc store oracle =
      (DispatchResult.ok id lat lng cn dn dist dur, store2, qs)) :
    store2 = store.map (fun p => if p.1 = id then (p.1, setBusy p.2) else p) ∧
    (fetchRoute data st dirs).2.1 = st :=
  ⟨getNearest_ok_store reqLoc store oracle id lat lng cn dn dist dur store2 qs hrun,
   fetchRoute_preserves_store data st dirs⟩

/-- Witness for C10 on a two-ambulance store: only the winner's status field
changes, the other document is untouched, and a concrete `fetch_route` call
leaves its store as given. -/
theorem dispatch_frame_and_fetchRoute_pure_witness :
    [("A1", setBusy dRaj), ("B2", dLee)] =
      [("A1", dRaj), ("B2", dLee)].map (fun p =>
        if p.1 = "A1" then (p.1, setBusy p.2) else p) ∧
    (fetchRoute none [] (fun _ _ => DirectionsResp.err none)).2.1 = [] :=
  dispatch_frame_and_fetchRoute_pure (some (0, 0)) [("A1", dRaj), ("B2", dLee)]
    (fun _ dst => if dst = ((1 : ℚ), (2 : ℚ)) then OracleResp.success 300 "3 mins"
      else OracleResp.success 900 "9 mins")
    "A1" 1 2 "999" "Raj" 300 "3 mins" [("A1", setBusy dRaj), ("B2", dLee)] [(1, 2), (3, 4)]
    none [] (fun _ _ => DirectionsResp.err none)
    (by decide)

end AmbulanceServer
